import Mathlib

/-!
Shallow embedding of the authorization-request builder, client, and
token-response typing of the `openidconnect` crate (src/src/lib.rs),
together with the spec-modelled parts of the crate (the form-urlencoded
query serializer of the external `oauth2`/`url` crates, and the
verification / user-info / id-token modules that accompany `lib.rs`).
-/

namespace OpenIdConnect

/-! ## application/x-www-form-urlencoded serialization

Modelled from the spec (§6): the `url` crate's form-urlencoded
serializer used by `oauth2::AuthorizationRequest::url`.  A byte is kept
verbatim when it is an ASCII alphanumeric or one of `*`, `-`, `.`, `_`;
a space becomes `+`; every other byte is percent-encoded with uppercase
hexadecimal digits.  Non-ASCII characters are first expanded to their
UTF-8 bytes. -/

/-- Is byte `b` emitted verbatim by the form-urlencoded serializer? -/
def isFormSafeByte (b : Nat) : Bool :=
  (48 ≤ b && b ≤ 57) || (65 ≤ b && b ≤ 90) || (97 ≤ b && b ≤ 122) ||
  b == 42 || b == 45 || b == 46 || b == 95

/-- Uppercase hexadecimal digit for `n < 16`. -/
def hexUpper (n : Nat) : Char :=
  if n < 10 then Char.ofNat (48 + n) else Char.ofNat (55 + n)

/-- Percent-encode a single byte (space becomes `+`). -/
def encodeByte (b : Nat) : String :=
  if b == 32 then "+"
  else if isFormSafeByte b then String.singleton (Char.ofNat b)
  else String.mk ['%', hexUpper (b / 16), hexUpper (b % 16)]

/-- The UTF-8 bytes of a character. -/
def charUtf8Bytes (c : Char) : List Nat :=
  let n := c.toNat
  if n < 128 then [n]
  else if n < 2048 then [192 + n / 64, 128 + n % 64]
  else if n < 65536 then [224 + n / 4096, 128 + (n / 64) % 64, 128 + n % 64]
  else [240 + n / 262144, 128 + (n / 4096) % 64, 128 + (n / 64) % 64, 128 + n % 64]

/-- form-urlencode a string (UTF-8 bytes, then per-byte encoding). -/
def formUrlencode (s : String) : String :=
  String.join (s.data.map (fun c => String.join ((charUtf8Bytes c).map encodeByte)))

/-! ## The external `oauth2` crate's authorization request

Modelled from the spec (§6 and the emission order pinned by the tests in
src/src/lib.rs): `oauth2::AuthorizationRequest` holds the authorization
endpoint URL, client id, CSRF state, optional redirect URL, the
response type, the scope list and the extra-parameter list; its `url()`
emits `response_type`, `client_id`, `state`, `redirect_uri` (when set),
`scope` (when non-empty, values joined by a single space), then every
extra parameter in insertion order. -/

structure OAuth2AuthorizationRequest where
  auth_url : String
  client_id : String
  state : String
  redirect_url : Option String
  response_type : String
  scopes : List String
  extra_params : List (String × String)
deriving Repr, DecidableEq

/-- `oauth2::AuthorizationRequest::add_scope`: append a scope. -/
def OAuth2AuthorizationRequest.add_scope (r : OAuth2AuthorizationRequest)
    (scope : String) : OAuth2AuthorizationRequest :=
  { r with scopes := r.scopes ++ [scope] }

/-- `oauth2::AuthorizationRequest::add_extra_param`: append an extra parameter. -/
def OAuth2AuthorizationRequest.add_extra_param (r : OAuth2AuthorizationRequest)
    (name value : String) : OAuth2AuthorizationRequest :=
  { r with extra_params := r.extra_params ++ [(name, value)] }

/-- `oauth2::AuthorizationRequest::set_response_type`. -/
def OAuth2AuthorizationRequest.set_response_type (r : OAuth2AuthorizationRequest)
    (response_type : String) : OAuth2AuthorizationRequest :=
  { r with response_type := response_type }

/-- The query pairs emitted by `oauth2::AuthorizationRequest::url`, in order. -/
def OAuth2AuthorizationRequest.pairs (r : OAuth2AuthorizationRequest) :
    List (String × String) :=
  [("response_type", r.response_type), ("client_id", r.client_id),
   ("state", r.state)]
  ++ (match r.redirect_url with
      | some u => [("redirect_uri", u)]
      | none => [])
  ++ (if r.scopes.isEmpty then []
      else [("scope", String.intercalate " " r.scopes)])
  ++ r.extra_params

/-- Render query pairs as `name=value` joined by `&`, form-urlencoding each. -/
def renderQuery : List (String × String) → String
  | [] => ""
  | [p] => formUrlencode p.1 ++ "=" ++ formUrlencode p.2
  | p :: q :: ps =>
    formUrlencode p.1 ++ "=" ++ formUrlencode p.2 ++ "&" ++ renderQuery (q :: ps)

/-- `oauth2::AuthorizationRequest::url`: the full URL and the CSRF state. -/
def OAuth2AuthorizationRequest.url (r : OAuth2AuthorizationRequest) :
    String × String :=
  (r.auth_url ++ "?" ++ renderQuery r.pairs, r.state)

/-! ## Response types and the authentication flow (src/src/lib.rs:499-531) -/

/-- `core::CoreResponseType` (the variants used by `AuthorizationRequest::url`).
Modelled from the spec for the `core` module, which is not under src/. -/
inductive CoreResponseType where
  | Code
  | IdToken
  | Token
deriving Repr, DecidableEq

/-- `oauth2::helpers::variant_name` on `CoreResponseType` (serde names). -/
def CoreResponseType.variant_name : CoreResponseType → String
  | .Code => "code"
  | .IdToken => "id_token"
  | .Token => "token"

/-- `AuthenticationFlow` (src/src/lib.rs:504-531). -/
inductive AuthenticationFlow (RT : Type) where
  | AuthorizationCode
  | Implicit (include_token : Bool)
  | Hybrid (response_types : List RT)

/-- The `response_type` string computed by `AuthorizationRequest::url`
(src/src/lib.rs:986-1011); `vname` embeds `oauth2::helpers::variant_name`
for the generic response type `RT`. -/
def responseTypeFor {RT : Type} (vname : RT → String) :
    AuthenticationFlow RT → String
  | .AuthorizationCode => CoreResponseType.Code.variant_name
  | .Implicit include_token =>
    if include_token then
      String.intercalate " "
        ([CoreResponseType.IdToken, CoreResponseType.Token].map
          CoreResponseType.variant_name)
    else CoreResponseType.IdToken.variant_name
  | .Hybrid response_types =>
    String.intercalate " " (response_types.map vname)

/-! ## The OIDC authorization request builder (src/src/lib.rs:814-1046) -/

/-- `AuthorizationRequest` (src/src/lib.rs:814-831).  Typed wrappers
(`AuthenticationContextClass`, `LanguageTag`, `LoginHint`, display and
prompt types) are embedded as the strings their `AsRef<str>` yields;
`max_age : Duration` is embedded as its whole seconds. -/
structure AuthorizationRequest (RT : Type) where
  inner : OAuth2AuthorizationRequest
  acr_values : List String
  authentication_flow : AuthenticationFlow RT
  claims_locales : List String
  display : Option String
  id_token_hint : Option String
  login_hint : Option String
  max_age : Option Nat
  nonce : String
  prompts : List String
  ui_locales : List String

/-- `AuthorizationRequest::add_scope` (src/src/lib.rs:841-844). -/
def AuthorizationRequest.add_scope {RT : Type} (self : AuthorizationRequest RT)
    (scope : String) : AuthorizationRequest RT :=
  { self with inner := self.inner.add_scope scope }

/-- `AuthorizationRequest::add_extra_param` (src/src/lib.rs:861-868). -/
def AuthorizationRequest.add_extra_param {RT : Type}
    (self : AuthorizationRequest RT) (name value : String) :
    AuthorizationRequest RT :=
  { self with inner := self.inner.add_extra_param name value }

/-- `AuthorizationRequest::add_auth_context_value` (src/src/lib.rs:890-893). -/
def AuthorizationRequest.add_auth_context_value {RT : Type}
    (self : AuthorizationRequest RT) (acr_value : String) :
    AuthorizationRequest RT :=
  { self with acr_values := self.acr_values ++ [acr_value] }

/-- `AuthorizationRequest::add_claims_locale` (src/src/lib.rs:900-903). -/
def AuthorizationRequest.add_claims_locale {RT : Type}
    (self : AuthorizationRequest RT) (claims_locale : String) :
    AuthorizationRequest RT :=
  { self with claims_locales := self.claims_locales ++ [claims_locale] }

/-- `AuthorizationRequest::set_display` (src/src/lib.rs:912-915). -/
def AuthorizationRequest.set_display {RT : Type}
    (self : AuthorizationRequest RT) (display : String) :
    AuthorizationRequest RT :=
  { self with display := some display }

/-- `AuthorizationRequest::set_id_token_hint` (src/src/lib.rs:925-938):
stores the serialized ID token string. -/
def AuthorizationRequest.set_id_token_hint {RT : Type}
    (self : AuthorizationRequest RT) (id_token_hint : String) :
    AuthorizationRequest RT :=
  { self with id_token_hint := some id_token_hint }

/-- `AuthorizationRequest::set_login_hint` (src/src/lib.rs:945-948). -/
def AuthorizationRequest.set_login_hint {RT : Type}
    (self : AuthorizationRequest RT) (login_hint : String) :
    AuthorizationRequest RT :=
  { self with login_hint := some login_hint }

/-- `AuthorizationRequest::set_max_age` (src/src/lib.rs:956-959). -/
def AuthorizationRequest.set_max_age {RT : Type}
    (self : AuthorizationRequest RT) (max_age : Nat) :
    AuthorizationRequest RT :=
  { self with max_age := some max_age }

/-- `AuthorizationRequest::add_prompt` (src/src/lib.rs:965-968). -/
def AuthorizationRequest.add_prompt {RT : Type}
    (self : AuthorizationRequest RT) (prompt : String) :
    AuthorizationRequest RT :=
  { self with prompts := self.prompts ++ [prompt] }

/-- `AuthorizationRequest::add_ui_locale` (src/src/lib.rs:976-979). -/
def AuthorizationRequest.add_ui_locale {RT : Type}
    (self : AuthorizationRequest RT) (ui_locale : String) :
    AuthorizationRequest RT :=
  { self with ui_locales := self.ui_locales ++ [ui_locale] }

/-- `join_vec` (src/src/lib.rs:1119-1128): join entries by a single space. -/
def join_vec (entries : List String) : String :=
  String.intercalate " " entries

/-- The inner `oauth2` request after `AuthorizationRequest::url`
(src/src/lib.rs:1012-1041) has set the response type and appended the
OIDC-managed parameters (`nonce`, `acr_values`, `claims_locales`,
`display`, `id_token_hint`, `login_hint`, `max_age`, `prompt`,
`ui_locales`). -/
def AuthorizationRequest.finalInner {RT : Type} (vname : RT → String)
    (self : AuthorizationRequest RT) : OAuth2AuthorizationRequest :=
  let response_type := responseTypeFor vname self.authentication_flow
  let inner := (self.inner.set_response_type response_type).add_extra_param
    "nonce" self.nonce
  let inner := if self.acr_values.isEmpty then inner
    else inner.add_extra_param "acr_values" (join_vec self.acr_values)
  let inner := if self.claims_locales.isEmpty then inner
    else inner.add_extra_param "claims_locales" (join_vec self.claims_locales)
  let inner := match self.display with
    | some display => inner.add_extra_param "display" display
    | none => inner
  let inner := match self.id_token_hint with
    | some id_token_hint => inner.add_extra_param "id_token_hint" id_token_hint
    | none => inner
  let inner := match self.login_hint with
    | some login_hint => inner.add_extra_param "login_hint" login_hint
    | none => inner
  let inner := match self.max_age with
    | some max_age => inner.add_extra_param "max_age" (toString max_age)
    | none => inner
  let inner := if self.prompts.isEmpty then inner
    else inner.add_extra_param "prompt" (join_vec self.prompts)
  let inner := if self.ui_locales.isEmpty then inner
    else inner.add_extra_param "ui_locales" (join_vec self.ui_locales)
  inner

/-- `AuthorizationRequest::url` (src/src/lib.rs:985-1045): the full URL,
the CSRF state, and the nonce. -/
def AuthorizationRequest.url {RT : Type} (vname : RT → String)
    (self : AuthorizationRequest RT) : String × String × String :=
  let (url, state) := (self.finalInner vname).url
  (url, state, self.nonce)

/-- The query pairs of the emitted authorization URL, in emission order. -/
def AuthorizationRequest.urlPairs {RT : Type} (vname : RT → String)
    (self : AuthorizationRequest RT) : List (String × String) :=
  (self.finalInner vname).pairs

/-! ## The client (src/src/lib.rs:533-809)

The client's `oauth2_client` is flattened into the fields it contributes
to authorization requests (`auth_url`, `redirect_url`); the JWKS is kept
abstract as a type parameter `K`, since none of the claims below inspect
key material. -/

/-- `Client` (src/src/lib.rs:533-612) with `set_redirect_uri` state. -/
structure Client (K : Type) where
  client_id : String
  client_secret : Option String
  issuer : String
  auth_url : String
  token_url : Option String
  redirect_url : Option String
  userinfo_endpoint : Option String
  jwks : K

/-- `Client::set_redirect_uri` (src/src/lib.rs:663-667). -/
def Client.set_redirect_uri {K : Type} (c : Client K) (redirect_uri : String) :
    Client K :=
  { c with redirect_url := some redirect_uri }

/-- `Client::authorize_url` (src/src/lib.rs:719-744): build the request
with empty OIDC state, the generated state and nonce, then `add_scope
"openid"`. -/
def Client.authorize_url {K RT : Type} (c : Client K)
    (authentication_flow : AuthenticationFlow RT)
    (state_fn : Unit → String) (nonce_fn : Unit → String) :
    AuthorizationRequest RT :=
  (({ inner :=
      { auth_url := c.auth_url
        client_id := c.client_id
        state := state_fn ()
        redirect_url := c.redirect_url
        response_type := "code"
        scopes := []
        extra_params := [] }
      acr_values := []
      authentication_flow := authentication_flow
      claims_locales := []
      display := none
      id_token_hint := none
      login_hint := none
      max_age := none
      nonce := nonce_fn ()
      prompts := []
      ui_locales := [] } : AuthorizationRequest RT).add_scope "openid")

/-! ## ID token verification (spec-modelled)

The `verification` module of the crate is not under src/; the pieces the
claims need are modelled from the spec (§4.6, §7, §8). -/

/-- JWS signing algorithms (spec §4.3), plus the `none` header value
(spec §4.3: "`none` is never supported"). -/
inductive JwsAlg where
  | RS256 | RS384 | RS512
  | PS256 | PS384 | PS512
  | HS256 | HS384 | HS512
  | NoneAlg
deriving Repr, DecidableEq

/-- Signature-verification errors (spec §7). -/
inductive SignatureVerificationError where
  | InvalidKey
  | NoMatchingKey
  | AmbiguousKey
  | UnsupportedAlg
  | DisallowedAlg
  | CryptoError
deriving Repr, DecidableEq

/-- Modelled from the spec: `IdTokenVerifier` (verification module, not
under src/) is built from client identity, issuer and JWKS (spec §3
"Lifecycles"), carries the allowed-algorithm set, and by default rejects
unsigned tokens; accepting `alg="none"` requires explicit insecure
configuration (spec §4.6 step 1). -/
structure IdTokenVerifier (K : Type) where
  client_id : String
  client_secret : Option String
  issuer : String
  jwks : K
  allowed_algs : List JwsAlg
  accept_unsigned : Bool

/-- Modelled from the spec: `IdTokenVerifier::new_confidential_client`
stores the client secret (enables HS* keys, spec §4.6 step 2); the
default configuration rejects unsigned tokens. -/
def IdTokenVerifier.new_confidential_client {K : Type} (client_id : String)
    (client_secret : String) (issuer : String) (jwks : K) :
    IdTokenVerifier K :=
  { client_id := client_id
    client_secret := some client_secret
    issuer := issuer
    jwks := jwks
    allowed_algs := [.RS256, .RS384, .RS512, .PS256, .PS384, .PS512,
                     .HS256, .HS384, .HS512]
    accept_unsigned := false }

/-- Modelled from the spec: `IdTokenVerifier::new_public_client` stores
no client secret (public clients reject HS*, spec §4.6 step 2); the
default configuration rejects unsigned tokens. -/
def IdTokenVerifier.new_public_client {K : Type} (client_id : String)
    (issuer : String) (jwks : K) : IdTokenVerifier K :=
  { client_id := client_id
    client_secret := none
    issuer := issuer
    jwks := jwks
    allowed_algs := [.RS256, .RS384, .RS512, .PS256, .PS384, .PS512]
    accept_unsigned := false }

/-- A JWT as far as header inspection is concerned: the header `alg`
and the claims it would yield (spec §3 "JWT"). -/
structure Jwt (C : Type) where
  header_alg : JwsAlg
  claims : C

/-- Modelled from the spec: §4.6 step 1 (header inspection).  Reject
`alg = "none"` with `DisallowedAlg` unless the verifier is explicitly
configured to accept unsigned tokens; reject any `alg` outside the
allowed set with `DisallowedAlg` (spec §8). -/
def IdTokenVerifier.checkHeader {K : Type} (v : IdTokenVerifier K)
    (alg : JwsAlg) : Except SignatureVerificationError Unit :=
  if alg = .NoneAlg then
    if v.accept_unsigned then .ok () else .error .DisallowedAlg
  else if v.allowed_algs.contains alg then .ok ()
  else .error .DisallowedAlg

/-- Modelled from the spec: the §4.6 verification pipeline.  Header
inspection (step 1) runs first and short-circuits; `rest` stands for
steps 2-12 (key selection, signature, claim validation), which the
claims below never inspect. -/
def IdTokenVerifier.verifiedClaims {K C : Type} (v : IdTokenVerifier K)
    (rest : Jwt C → Except SignatureVerificationError C) (jwt : Jwt C) :
    Except SignatureVerificationError C :=
  match v.checkHeader jwt.header_alg with
  | .error e => .error e
  | .ok () => rest jwt

/-! ## UserInfo requests (src/src/lib.rs:788-808) -/

/-- Modelled from the spec: `UserInfoVerifier` (verification module, not
under src/) stores the client identity, issuer, JWKS and the expected
subject (spec §4.7). -/
structure UserInfoVerifier (K : Type) where
  client_id : String
  issuer : String
  jwks : K
  expected_subject : Option String
deriving Repr, DecidableEq

/-- Modelled from the spec: `UserInfoVerifier::new` stores its
arguments. -/
def UserInfoVerifier.new {K : Type} (client_id : String) (issuer : String)
    (jwks : K) (expected_subject : Option String) : UserInfoVerifier K :=
  { client_id := client_id
    issuer := issuer
    jwks := jwks
    expected_subject := expected_subject }

/-- `UserInfoRequest` (user_info module, not under src/; fields as
constructed by `Client::user_info`, src/src/lib.rs:793-807). -/
structure UserInfoRequest (K : Type) where
  url : String
  access_token : String
  require_signed_response : Bool
  signed_response_verifier : UserInfoVerifier K
deriving Repr, DecidableEq

/-- `NoUserInfoEndpoint` (user_info module): the error returned when the
client has no userinfo endpoint (a fieldless unit struct). -/
structure NoUserInfoEndpoint where
deriving Repr, DecidableEq

/-- `Client::user_info` (src/src/lib.rs:788-808). -/
def Client.user_info {K : Type} (c : Client K) (access_token : String)
    (expected_subject : Option String) :
    Except NoUserInfoEndpoint (UserInfoRequest K) :=
  match c.userinfo_endpoint with
  | none => .error {}
  | some u =>
    .ok { url := u
          access_token := access_token
          require_signed_response := false
          signed_response_verifier :=
            UserInfoVerifier.new c.client_id c.issuer c.jwks expected_subject }

/-- `Client::id_token_verifier` (src/src/lib.rs:672-687). -/
def Client.id_token_verifier {K : Type} (c : Client K) : IdTokenVerifier K :=
  match c.client_secret with
  | some client_secret =>
    IdTokenVerifier.new_confidential_client c.client_id client_secret
      c.issuer c.jwks
  | none =>
    IdTokenVerifier.new_public_client c.client_id c.issuer c.jwks

/-! ## Token-response typing (src/src/lib.rs:1048-1117)

`IdTokenFields` / `RefreshIdTokenFields` live in the `id_token` module,
which is not under src/; they are modelled from the spec (§4.8): the ID
token is a required field of the former and an optional field of the
latter.  `StandardTokenResponse` is the external `oauth2` response,
modelled from the spec's list of what an OAuth2 token response
exposes. -/

/-- Modelled from the spec: `IdTokenFields` (id_token module, not under
src/): the ID token is required. -/
structure IdTokenFields (IdTok EF : Type) where
  id_token : IdTok
  extra : EF
deriving Repr, DecidableEq

/-- Modelled from the spec: `RefreshIdTokenFields` (id_token module, not
under src/): the ID token is optional. -/
structure RefreshIdTokenFields (IdTok EF : Type) where
  id_token : Option IdTok
  extra : EF
deriving Repr, DecidableEq

/-- Modelled from the spec: deserializing `IdTokenFields` from a token
response whose `id_token` member may be absent fails when it is absent
(the field is required). -/
def IdTokenFields.deserialize {IdTok EF : Type} (id_token : Option IdTok)
    (extra : EF) : Option (IdTokenFields IdTok EF) :=
  match id_token with
  | some t => some { id_token := t, extra := extra }
  | none => none

/-- Modelled from the spec: deserializing `RefreshIdTokenFields` from a
refresh response whose `id_token` member may be absent always succeeds
(the field is optional). -/
def RefreshIdTokenFields.deserialize {IdTok EF : Type}
    (id_token : Option IdTok) (extra : EF) :
    Option (RefreshIdTokenFields IdTok EF) :=
  some { id_token := id_token, extra := extra }

/-- Modelled from the spec: `oauth2::StandardTokenResponse` (external
crate): everything an OAuth2 token response exposes, plus the extra
fields `F`. -/
structure StandardTokenResponse (F TT : Type) where
  access_token : String
  token_type : TT
  expires_in : Option Nat
  refresh_token : Option String
  scopes : Option (List String)
  extra_fields : F
deriving Repr, DecidableEq

/-- The `TokenResponse::id_token` impl for `StandardTokenResponse` over
`IdTokenFields` (src/src/lib.rs:1066-1080): always yields an ID token. -/
def tokenResponseIdToken {IdTok EF TT : Type}
    (r : StandardTokenResponse (IdTokenFields IdTok EF) TT) : IdTok :=
  r.extra_fields.id_token

/-- The `RefreshTokenResponse::id_token` impl for
`StandardTokenResponse` over `RefreshIdTokenFields`
(src/src/lib.rs:1103-1117): yields an optional ID token. -/
def refreshTokenResponseIdToken {IdTok EF TT : Type}
    (r : StandardTokenResponse (RefreshIdTokenFields IdTok EF) TT) :
    Option IdTok :=
  r.extra_fields.id_token

/-! ## Concrete scenarios (the tests of src/src/lib.rs:1145-1257) -/

/-- The test client (src/src/lib.rs:1145-1156): id `aaa`, secret `bbb`,
issuer `https://example`, auth URL `https://example/authorize`, no
redirect URI, no userinfo endpoint. -/
def minimalClient : Client Unit :=
  { client_id := "aaa"
    client_secret := some "bbb"
    issuer := "https://example"
    auth_url := "https://example/authorize"
    token_url := some "https://example/token"
    redirect_url := none
    userinfo_endpoint := none
    jwks := () }

/-- The minimal authorization request (src/src/lib.rs:1158-1168):
AuthorizationCode flow, CSRF `CSRF123`, nonce `NONCE456`. -/
def minimalRequest : AuthorizationRequest CoreResponseType :=
  minimalClient.authorize_url AuthenticationFlow.AuthorizationCode
    (fun _ => "CSRF123") (fun _ => "NONCE456")

/-- The full authorization request (src/src/lib.rs:1178-1207): redirect
`http://localhost:8888/`, added scope `email`, display `touch`, prompts
`login` then `consent`, max_age 1800, ui_locales `fr-CA`, `fr`, `en`,
ACR `urn:mace:incommon:iap:silver`. -/
def fullRequest : AuthorizationRequest CoreResponseType :=
  ((((((((((minimalClient.set_redirect_uri
    "http://localhost:8888/").authorize_url AuthenticationFlow.AuthorizationCode
    (fun _ => "CSRF123") (fun _ => "NONCE456")).add_scope
    "email").set_display "touch").add_prompt "login").add_prompt
    "consent").set_max_age 1800).add_ui_locale "fr-CA").add_ui_locale
    "fr").add_ui_locale "en").add_auth_context_value
    "urn:mace:incommon:iap:silver"

/-- The full request plus a caller extra parameter `foo=bar`
(src/src/lib.rs:1229-1245 adds `add_extra_param("foo", "bar")`). -/
def extraRequest : AuthorizationRequest CoreResponseType :=
  fullRequest.add_extra_param "foo" "bar"

/-- The minimal client with a Hybrid([Code, IdToken]) flow. -/
def hybridRequest : AuthorizationRequest CoreResponseType :=
  minimalClient.authorize_url
    (AuthenticationFlow.Hybrid [CoreResponseType.Code, CoreResponseType.IdToken])
    (fun _ => "CSRF123") (fun _ => "NONCE456")

/-- The test client extended with a userinfo endpoint. -/
def userClient : Client Unit :=
  { minimalClient with userinfo_endpoint := some "https://example/userinfo" }

/-- The test client without a client secret (a public client). -/
def publicClient : Client Unit :=
  { minimalClient with client_secret := none }

end OpenIdConnect

namespace OpenIdConnect

/-! ## Helper lemmas -/

theorem pairs_add_extra (r : OAuth2AuthorizationRequest) (n v : String) :
    (r.add_extra_param n v).pairs = r.pairs ++ [(n, v)] := by
  simp [OAuth2AuthorizationRequest.pairs, OAuth2AuthorizationRequest.add_extra_param]

theorem pairs_ite (c : Bool) (X : OAuth2AuthorizationRequest) (n v : String) :
    (if c then X else X.add_extra_param n v).pairs
      = X.pairs ++ (if c then [] else [(n, v)]) := by
  cases c <;> simp [pairs_add_extra]

theorem pairs_set_response_type (r : OAuth2AuthorizationRequest) (rt : String) :
    (r.set_response_type rt).pairs =
      [("response_type", rt), ("client_id", r.client_id), ("state", r.state)]
      ++ (match r.redirect_url with
          | some u => [("redirect_uri", u)] | none => [])
      ++ (if r.scopes.isEmpty then []
          else [("scope", String.intercalate " " r.scopes)])
      ++ r.extra_params := by
  simp [OAuth2AuthorizationRequest.pairs, OAuth2AuthorizationRequest.set_response_type]

/-- The query pairs of the emitted URL, flattened to emission order:
the OAuth2-managed parameters, then the caller's extra parameters in
insertion order, then the OIDC-managed parameters appended by
`AuthorizationRequest::url` (src/src/lib.rs:1012-1041). -/
theorem urlPairs_flatten {RT : Type} (vname : RT → String)
    (r : AuthorizationRequest RT) :
    r.urlPairs vname =
      [("response_type", responseTypeFor vname r.authentication_flow),
       ("client_id", r.inner.client_id),
       ("state", r.inner.state)]
      ++ (match r.inner.redirect_url with
          | some u => [("redirect_uri", u)] | none => [])
      ++ (if r.inner.scopes.isEmpty then []
          else [("scope", String.intercalate " " r.inner.scopes)])
      ++ r.inner.extra_params
      ++ [("nonce", r.nonce)]
      ++ (if r.acr_values.isEmpty then []
          else [("acr_values", join_vec r.acr_values)])
      ++ (if r.claims_locales.isEmpty then []
          else [("claims_locales", join_vec r.claims_locales)])
      ++ (match r.display with | some d => [("display", d)] | none => [])
      ++ (match r.id_token_hint with
          | some h => [("id_token_hint", h)] | none => [])
      ++ (match r.login_hint with
          | some h => [("login_hint", h)] | none => [])
      ++ (match r.max_age with
          | some m => [("max_age", toString m)] | none => [])
      ++ (if r.prompts.isEmpty then [] else [("prompt", join_vec r.prompts)])
      ++ (if r.ui_locales.isEmpty then []
          else [("ui_locales", join_vec r.ui_locales)]) := by
  unfold AuthorizationRequest.urlPairs AuthorizationRequest.finalInner
  cases h3 : r.display <;>
  cases h4 : r.id_token_hint <;>
  cases h5 : r.login_hint <;>
  cases h6 : r.max_age <;>
  simp only [h3, h4, h5, h6, pairs_ite, pairs_add_extra, pairs_set_response_type,
    List.append_assoc, List.nil_append, List.append_nil, List.cons_append]

theorem foldl_add_scope_scopes {RT : Type} (scopes : List String)
    (r : AuthorizationRequest RT) :
    (scopes.foldl AuthorizationRequest.add_scope r).inner.scopes
      = r.inner.scopes ++ scopes := by
  induction scopes generalizing r with
  | nil => simp
  | cons s rest ih =>
    simp [List.foldl_cons, ih, AuthorizationRequest.add_scope,
      OAuth2AuthorizationRequest.add_scope]

/-! ## Claims -/

set_option maxRecDepth 20000

/-- C1: for the client `aaa`/`bbb` with auth URL `https://example/authorize`,
no redirect URI, flow AuthorizationCode, CSRF `CSRF123`, nonce `NONCE456`,
`AuthorizationRequest::url()` returns byte-exactly
`https://example/authorize?response_type=code&client_id=aaa&state=CSRF123&scope=openid&nonce=NONCE456`
(together with the CSRF state and the nonce). -/
theorem c1_authorize_url_minimal :
    minimalRequest.url CoreResponseType.variant_name =
      ("https://example/authorize?response_type=code&client_id=aaa&state=CSRF123&scope=openid&nonce=NONCE456",
       "CSRF123", "NONCE456") := by
  decide

/-- C2: the `response_type` query parameter is derived from the
`AuthenticationFlow`: AuthorizationCode yields `code`; Implicit(false)
yields `id_token`; Implicit(true) yields `id_token token`; Hybrid(rts)
yields the variant names of `rts` joined by a single ASCII space in
caller order; it is the first query parameter of every emitted URL; and
Hybrid([Code, IdToken]) yields `code id_token`, emitted as
`response_type=code+id_token`. -/
theorem c2_response_type_mapping :
    (∀ (RT : Type) (vname : RT → String),
      responseTypeFor vname AuthenticationFlow.AuthorizationCode = "code"
      ∧ responseTypeFor vname (AuthenticationFlow.Implicit false) = "id_token"
      ∧ responseTypeFor vname (AuthenticationFlow.Implicit true) = "id_token token"
      ∧ ∀ rts : List RT,
          responseTypeFor vname (AuthenticationFlow.Hybrid rts)
            = String.intercalate " " (rts.map vname))
    ∧ (∀ (RT : Type) (vname : RT → String) (r : AuthorizationRequest RT),
        (r.urlPairs vname).head? =
          some ("response_type", responseTypeFor vname r.authentication_flow))
    ∧ responseTypeFor CoreResponseType.variant_name
        (AuthenticationFlow.Hybrid [CoreResponseType.Code, CoreResponseType.IdToken])
        = "code id_token"
    ∧ (hybridRequest.url CoreResponseType.variant_name).1 =
        "https://example/authorize?response_type=code+id_token&client_id=aaa&state=CSRF123&scope=openid&nonce=NONCE456" := by
  refine ⟨fun RT vname => ⟨rfl, rfl, rfl, fun rts => rfl⟩, ?_, by decide, by decide⟩
  intro RT vname r
  rw [urlPairs_flatten]
  rfl

/-- C3 counterexample: for the full request plus
`add_extra_param("foo", "bar")` (the scenario of the repository's own
`test_authorize_url_full`), the caller-added extra parameter `foo`
is emitted immediately after `scope` and *before* the managed
parameters `nonce`, `acr_values`, `display`, `max_age`, `prompt` and
`ui_locales` — refuting the claim that all caller-added extra
parameters appear after the managed parameters. -/
theorem c3_extra_params_counterexample :
    ((extraRequest.urlPairs CoreResponseType.variant_name).map Prod.fst
      = ["response_type", "client_id", "state", "redirect_uri", "scope",
         "foo", "nonce", "acr_values", "display", "max_age", "prompt",
         "ui_locales"])
    ∧ ((extraRequest.urlPairs CoreResponseType.variant_name).map Prod.fst).findIdx
        (fun s => s == "foo")
      < ((extraRequest.urlPairs CoreResponseType.variant_name).map Prod.fst).findIdx
        (fun s => s == "nonce") := by
  decide

/-- C3 (amended): the emitted query parameters appear in the order
`response_type`, `client_id`, `state`, `redirect_uri` (when present),
`scope` (when present), then all caller-added extra parameters in
insertion order, then `nonce`, `acr_values`, `claims_locales`,
`display`, `id_token_hint`, `login_hint`, `max_age`, `prompt`,
`ui_locales` (each only when present). -/
theorem c3_extra_params_order :
    ∀ (RT : Type) (vname : RT → String) (r : AuthorizationRequest RT),
    r.urlPairs vname =
      [("response_type", responseTypeFor vname r.authentication_flow),
       ("client_id", r.inner.client_id),
       ("state", r.inner.state)]
      ++ (match r.inner.redirect_url with
          | some u => [("redirect_uri", u)] | none => [])
      ++ (if r.inner.scopes.isEmpty then []
          else [("scope", String.intercalate " " r.inner.scopes)])
      ++ r.inner.extra_params
      ++ [("nonce", r.nonce)]
      ++ (if r.acr_values.isEmpty then []
          else [("acr_values", join_vec r.acr_values)])
      ++ (if r.claims_locales.isEmpty then []
          else [("claims_locales", join_vec r.claims_locales)])
      ++ (match r.display with | some d => [("display", d)] | none => [])
      ++ (match r.id_token_hint with
          | some h => [("id_token_hint", h)] | none => [])
      ++ (match r.login_hint with
          | some h => [("login_hint", h)] | none => [])
      ++ (match r.max_age with
          | some m => [("max_age", toString m)] | none => [])
      ++ (if r.prompts.isEmpty then [] else [("prompt", join_vec r.prompts)])
      ++ (if r.ui_locales.isEmpty then []
          else [("ui_locales", join_vec r.ui_locales)]) :=
  fun _ vname r => urlPairs_flatten vname r

/-- C4: for the full scenario (redirect `http://localhost:8888/`, scope
`email`, display `touch`, prompts `login` and `consent`, max_age 1800,
ui_locales `fr-CA` `fr` `en`, ACR `urn:mace:incommon:iap:silver`),
`AuthorizationRequest::url()` returns the expected URL byte-exactly. -/
theorem c4_authorize_url_full :
    (fullRequest.url CoreResponseType.variant_name).1 =
      "https://example/authorize?response_type=code&client_id=aaa&state=CSRF123&redirect_uri=http%3A%2F%2Flocalhost%3A8888%2F&scope=openid+email&nonce=NONCE456&acr_values=urn%3Amace%3Aincommon%3Aiap%3Asilver&display=touch&max_age=1800&prompt=login+consent&ui_locales=fr-CA+fr+en" := by
  decide

/-- C5: for every request created by `Client::authorize_url` followed by
any sequence of `add_scope` calls, the scope list is `openid` followed
by the added scopes in call order, and the emitted URL carries a `scope`
parameter whose value joins them with single spaces. -/
theorem c5_scope_openid_order :
    ∀ (K RT : Type) (c : Client K) (flow : AuthenticationFlow RT)
      (state_fn nonce_fn : Unit → String) (scopes : List String)
      (vname : RT → String),
    (scopes.foldl AuthorizationRequest.add_scope
        (c.authorize_url flow state_fn nonce_fn)).inner.scopes
      = "openid" :: scopes
    ∧ ("scope", String.intercalate " " ("openid" :: scopes)) ∈
        (scopes.foldl AuthorizationRequest.add_scope
          (c.authorize_url flow state_fn nonce_fn)).urlPairs vname := by
  intro K RT c flow state_fn nonce_fn scopes vname
  have hscopes : (scopes.foldl AuthorizationRequest.add_scope
      (c.authorize_url flow state_fn nonce_fn)).inner.scopes
      = "openid" :: scopes := by
    rw [foldl_add_scope_scopes]
    rfl
  refine ⟨hscopes, ?_⟩
  rw [urlPairs_flatten, hscopes]
  simp

theorem filter_ite_nil {α : Type} (p : α → Bool) (c : Prop) [Decidable c]
    (l : List α) :
    (if c then [] else l).filter p = if c then [] else l.filter p := by
  split <;> rfl

set_option maxHeartbeats 1000000 in
/-- C6: each of `acr_values`, `claims_locales`, `ui_locales` and
`prompt` is emitted as at most one query parameter — exactly one, whose
value joins the added entries with single ASCII spaces in insertion
order, when entries were added, and none otherwise.  Stated via
`List.filter` over the emitted pairs; the hypothesis rules out
caller extras shadowing these names (undefined behavior per the
`add_extra_param` contract, src/src/lib.rs:849-853). -/
theorem c6_multi_valued_params {RT : Type} (vname : RT → String)
    (r : AuthorizationRequest RT)
    (hextras : ∀ p ∈ r.inner.extra_params,
      p.1 ≠ "acr_values" ∧ p.1 ≠ "claims_locales" ∧ p.1 ≠ "ui_locales" ∧
      p.1 ≠ "prompt") :
    ((r.urlPairs vname).filter (fun q => q.1 == "acr_values")
      = if r.acr_values.isEmpty then []
        else [("acr_values", join_vec r.acr_values)])
    ∧ ((r.urlPairs vname).filter (fun q => q.1 == "claims_locales")
      = if r.claims_locales.isEmpty then []
        else [("claims_locales", join_vec r.claims_locales)])
    ∧ ((r.urlPairs vname).filter (fun q => q.1 == "ui_locales")
      = if r.ui_locales.isEmpty then []
        else [("ui_locales", join_vec r.ui_locales)])
    ∧ ((r.urlPairs vname).filter (fun q => q.1 == "prompt")
      = if r.prompts.isEmpty then []
        else [("prompt", join_vec r.prompts)]) := by
  have hacr : r.inner.extra_params.filter (fun q => q.1 == "acr_values") = [] := by
    rw [List.filter_eq_nil_iff]
    intro p hp
    simpa using (hextras p hp).1
  have hcl : r.inner.extra_params.filter (fun q => q.1 == "claims_locales") = [] := by
    rw [List.filter_eq_nil_iff]
    intro p hp
    simpa using (hextras p hp).2.1
  have hui : r.inner.extra_params.filter (fun q => q.1 == "ui_locales") = [] := by
    rw [List.filter_eq_nil_iff]
    intro p hp
    simpa using (hextras p hp).2.2.1
  have hpr : r.inner.extra_params.filter (fun q => q.1 == "prompt") = [] := by
    rw [List.filter_eq_nil_iff]
    intro p hp
    simpa using (hextras p hp).2.2.2
  refine ⟨?_, ?_, ?_, ?_⟩ <;>
  · rw [urlPairs_flatten]
    cases r.inner.redirect_url <;>
    cases r.display <;>
    cases r.id_token_hint <;>
    cases r.login_hint <;>
    cases r.max_age <;>
    simp [List.filter_append, filter_ite_nil, List.filter_cons, hacr, hcl,
      hui, hpr]

/-- C6 witness: the hypothesis and conclusion hold at the full request
(whose extra-parameter list is empty). -/
theorem c6_multi_valued_params_witness :
    (∀ p ∈ fullRequest.inner.extra_params,
      p.1 ≠ "acr_values" ∧ p.1 ≠ "claims_locales" ∧ p.1 ≠ "ui_locales" ∧
      p.1 ≠ "prompt")
    ∧ (((fullRequest.urlPairs CoreResponseType.variant_name).filter
          (fun q => q.1 == "acr_values")
        = if fullRequest.acr_values.isEmpty then []
          else [("acr_values", join_vec fullRequest.acr_values)])
      ∧ ((fullRequest.urlPairs CoreResponseType.variant_name).filter
          (fun q => q.1 == "claims_locales")
        = if fullRequest.claims_locales.isEmpty then []
          else [("claims_locales", join_vec fullRequest.claims_locales)])
      ∧ ((fullRequest.urlPairs CoreResponseType.variant_name).filter
          (fun q => q.1 == "ui_locales")
        = if fullRequest.ui_locales.isEmpty then []
          else [("ui_locales", join_vec fullRequest.ui_locales)])
      ∧ ((fullRequest.urlPairs CoreResponseType.variant_name).filter
          (fun q => q.1 == "prompt")
        = if fullRequest.prompts.isEmpty then []
          else [("prompt", join_vec fullRequest.prompts)])) :=
  ⟨by decide,
   c6_multi_valued_params CoreResponseType.variant_name fullRequest (by decide)⟩

/-- C7: the `TokenResponse` contract's `id_token()` always returns an
ID token (a required, non-optional field, so deserialization without
one fails), while the `RefreshTokenResponse` contract's `id_token()`
returns an optional ID token that may be absent (deserialization
without one succeeds); both are `StandardTokenResponse`s and so expose
every underlying OAuth2 token-response field. -/
theorem c7_token_response_id_token :
    (∀ (IdTok EF : Type) (extra : EF),
      @IdTokenFields.deserialize IdTok EF none extra = none)
    ∧ (∀ (IdTok EF : Type) (t : IdTok) (extra : EF),
        IdTokenFields.deserialize (some t) extra
          = some { id_token := t, extra := extra })
    ∧ (∀ (IdTok EF TT : Type)
        (r : StandardTokenResponse (IdTokenFields IdTok EF) TT),
        tokenResponseIdToken r = r.extra_fields.id_token)
    ∧ (∀ (IdTok EF : Type) (o : Option IdTok) (extra : EF),
        RefreshIdTokenFields.deserialize o extra
          = some { id_token := o, extra := extra })
    ∧ (∃ r : StandardTokenResponse (RefreshIdTokenFields Nat Unit) Unit,
        refreshTokenResponseIdToken r = none)
    ∧ (∃ r : StandardTokenResponse (RefreshIdTokenFields Nat Unit) Unit,
        refreshTokenResponseIdToken r = some 7)
    ∧ (∀ (IdTok EF TT : Type)
        (r : StandardTokenResponse (IdTokenFields IdTok EF) TT),
        r = { access_token := r.access_token, token_type := r.token_type,
              expires_in := r.expires_in, refresh_token := r.refresh_token,
              scopes := r.scopes, extra_fields := r.extra_fields })
    ∧ (∀ (IdTok EF TT : Type)
        (r : StandardTokenResponse (RefreshIdTokenFields IdTok EF) TT),
        r = { access_token := r.access_token, token_type := r.token_type,
              expires_in := r.expires_in, refresh_token := r.refresh_token,
              scopes := r.scopes, extra_fields := r.extra_fields }) := by
  refine ⟨fun IdTok EF extra => rfl, fun IdTok EF t extra => rfl,
    fun IdTok EF TT r => rfl, fun IdTok EF o extra => rfl,
    ⟨{ access_token := "a", token_type := (), expires_in := none,
       refresh_token := none, scopes := none,
       extra_fields := { id_token := none, extra := () } }, rfl⟩,
    ⟨{ access_token := "a", token_type := (), expires_in := none,
       refresh_token := none, scopes := none,
       extra_fields := { id_token := some 7, extra := () } }, rfl⟩,
    fun IdTok EF TT r => rfl, fun IdTok EF TT r => rfl⟩

/-- C8: for every JWT whose header algorithm is `none`, verification
fails with `DisallowedAlg` (and never yields claims) unless the
verifier was explicitly configured to accept unsigned tokens; the
constructors build verifiers that reject unsigned tokens by default. -/
theorem c8_alg_none_rejected {K C : Type} :
    (∀ (v : IdTokenVerifier K)
      (rest : Jwt C → Except SignatureVerificationError C) (jwt : Jwt C),
      jwt.header_alg = JwsAlg.NoneAlg → v.accept_unsigned = false →
        v.verifiedClaims rest jwt = .error .DisallowedAlg
        ∧ ∀ c : C, v.verifiedClaims rest jwt ≠ .ok c)
    ∧ (∀ (client_id client_secret issuer : String) (jwks : K),
        (IdTokenVerifier.new_confidential_client client_id client_secret
          issuer jwks).accept_unsigned = false)
    ∧ (∀ (client_id issuer : String) (jwks : K),
        (IdTokenVerifier.new_public_client client_id issuer
          jwks).accept_unsigned = false) := by
  refine ⟨?_, fun _ _ _ _ => rfl, fun _ _ _ => rfl⟩
  intro v rest jwt halg hins
  have h : v.verifiedClaims rest jwt = .error .DisallowedAlg := by
    simp [IdTokenVerifier.verifiedClaims, IdTokenVerifier.checkHeader, halg, hins]
  exact ⟨h, fun c hc => by simp [h] at hc⟩

/-- C8 witness: a default (public-client) verifier rejects a concrete
`alg = none` JWT with `DisallowedAlg`. -/
theorem c8_alg_none_rejected_witness :
    (IdTokenVerifier.new_public_client (K := Unit) "aaa" "https://example"
      ()).verifiedClaims (fun j => .ok j.claims)
      { header_alg := JwsAlg.NoneAlg, claims := () }
      = .error .DisallowedAlg :=
  ((c8_alg_none_rejected (K := Unit) (C := Unit)).1
    (IdTokenVerifier.new_public_client "aaa" "https://example" ())
    (fun j => .ok j.claims)
    { header_alg := JwsAlg.NoneAlg, claims := () } rfl rfl).1

/-- C9: `Client::user_info` fails with `NoUserInfoEndpoint` exactly when
the client has no userinfo endpoint; otherwise it returns a
`UserInfoRequest` whose `require_signed_response` is `false` and whose
verifier is built from the client's id, issuer, JWKS and the expected
subject (src/src/lib.rs:788-808). -/
theorem c9_user_info {K : Type} (c : Client K) (access_token : String)
    (expected_subject : Option String) :
    (c.user_info access_token expected_subject = .error {}
      ↔ c.userinfo_endpoint = none)
    ∧ (∀ u, c.userinfo_endpoint = some u →
        c.user_info access_token expected_subject =
          .ok { url := u
                access_token := access_token
                require_signed_response := false
                signed_response_verifier :=
                  { client_id := c.client_id
                    issuer := c.issuer
                    jwks := c.jwks
                    expected_subject := expected_subject } }) := by
  cases h : c.userinfo_endpoint <;>
    simp [Client.user_info, UserInfoVerifier.new, h]

/-- C9 witness: at the client with userinfo endpoint
`https://example/userinfo`, `user_info` succeeds with the expected
request fields. -/
theorem c9_user_info_witness :
    userClient.user_info "token123" (some "bob") =
      .ok { url := "https://example/userinfo"
            access_token := "token123"
            require_signed_response := false
            signed_response_verifier :=
              { client_id := "aaa"
                issuer := "https://example"
                jwks := ()
                expected_subject := some "bob" } } :=
  (c9_user_info userClient "token123" (some "bob")).2
    "https://example/userinfo" rfl

/-- C10: `Client::id_token_verifier` builds a confidential-client
verifier from the client secret exactly when the client holds one, and
a public-client verifier otherwise, in both cases from the client's id,
issuer and JWKS (src/src/lib.rs:672-687); the pure embedding reflects
that the call borrows the client immutably and leaves it unchanged. -/
theorem c10_id_token_verifier {K : Type} (c : Client K) :
    (∀ s, c.client_secret = some s →
      c.id_token_verifier =
        IdTokenVerifier.new_confidential_client c.client_id s c.issuer c.jwks)
    ∧ (c.client_secret = none →
      c.id_token_verifier =
        IdTokenVerifier.new_public_client c.client_id c.issuer c.jwks)
    ∧ (c.id_token_verifier).client_id = c.client_id
    ∧ (c.id_token_verifier).issuer = c.issuer
    ∧ (c.id_token_verifier).jwks = c.jwks
    ∧ (c.id_token_verifier).client_secret = c.client_secret := by
  cases h : c.client_secret <;>
    simp [Client.id_token_verifier, h,
      IdTokenVerifier.new_confidential_client,
      IdTokenVerifier.new_public_client]

/-- C10 witness: the test client (secret `bbb`) yields the
confidential-client verifier built from that secret. -/
theorem c10_id_token_verifier_witness :
    minimalClient.id_token_verifier =
      IdTokenVerifier.new_confidential_client "aaa" "bbb" "https://example" () :=
  (c10_id_token_verifier minimalClient).1 "bbb" rfl

end OpenIdConnect
